import Mathlib

/-!
Shallow embedding of `src/user-guide/main.py`, a FastAPI tutorial app.

Python decimals (`float` fields used for prices and taxes) are embedded as
exact rationals `ℚ`; `Set[str]` is embedded as a list of strings; dicts whose
key sets are fixed by the handlers are embedded as structures with `Option`
fields for conditionally-present keys; `raise HTTPException` is embedded as
`Except.error`.  Python values that can be compared across types (the UUID
path parameter against the string keys of the seeded `items` dict) live in a
small value universe `PyVal` with Python's cross-type equality semantics.
-/

/-- `UserIn` pydantic model (main.py lines 9-13). -/
structure UserIn where
  username : String
  password : String
  email : String
  full_name : Option String := none
deriving DecidableEq

/-- `UserOut` pydantic model (main.py lines 16-19): no password field. -/
structure UserOut where
  username : String
  email : String
  full_name : Option String := none
deriving DecidableEq

/-- `Image` pydantic model (main.py lines 22-24). -/
structure Image where
  url : String
  name : String
deriving DecidableEq

/-- `Item` pydantic model (main.py lines 27-45). -/
structure Item where
  name : String
  description : Option String := none
  price : ℚ
  tax : Option ℚ := none
  tags : List String := []
  image : Option Image := none
deriving DecidableEq

/-- `Offer` pydantic model (main.py lines 48-52). -/
structure Offer where
  name : String
  description : Option String := none
  price : ℚ
  items : List Item
deriving DecidableEq

/-- `User` pydantic model (main.py lines 55-57). -/
structure User where
  username : String
  full_name : Option String := none
deriving DecidableEq

/-- `ModelName` closed string enum (main.py lines 60-63). -/
inductive ModelName where
  | alexnet
  | resnet
  | lenet
deriving DecidableEq

/-- The `.value` of a `ModelName` member: its underlying string. -/
def ModelName.value : ModelName → String
  | .alexnet => "alexnet"
  | .resnet => "resnet"
  | .lenet => "lenet"

/-- Validation declared on `Item` by pydantic `Field`s: `price` has `gt=0`
and `description` has `max_length=300` (main.py lines 29-32). -/
def itemValid (i : Item) : Bool :=
  (0 < i.price) &&
    (match i.description with
     | some d => d.length ≤ 300
     | none => true)

/-- Universe of Python values that get compared by the handlers: the string
keys of the seeded `items` dict and the UUID path parameter. -/
inductive PyVal where
  | str : String → PyVal
  | uuid : Nat → PyVal
deriving DecidableEq

/-- Python `==` on `PyVal`: equal strings compare equal, equal UUIDs compare
equal, and a UUID never equals a string (both `__eq__` methods return
`NotImplemented` for the foreign type, so Python falls back to identity,
which is `False` for distinct objects). -/
def pyEq : PyVal → PyVal → Bool
  | .str a, .str b => a == b
  | .uuid a, .uuid b => a == b
  | _, _ => false

/-- Python `in` on a dict embedded as a key/value list, using Python `==`. -/
def pyContains (db : List (PyVal × String)) (k : PyVal) : Bool :=
  db.any fun kv => pyEq kv.1 k

/-- Python truthiness of an optional string (`if q:`): `None` and the empty
string are falsy. -/
def strTruthy : Option String → Bool
  | none => false
  | some s => s != ""

/-- Python truthiness of an optional float (`if item.tax:`): `None` and zero
are falsy, any nonzero number is truthy. -/
def ratTruthy : Option ℚ → Bool
  | none => false
  | some x => x != 0

/-- An `HTTPException` as raised by the app: status code and detail. -/
structure HTTPError where
  status_code : Nat
  detail : String
deriving DecidableEq

/-- Seeded in-memory items-by-id mapping (main.py line 66):
`items = {"foo": "foo is not fool"}`. -/
def items : List (PyVal × String) := [(.str "foo", "foo is not fool")]

/-- Response of `POST /login/` (main.py lines 74-76). -/
structure LoginResponse where
  username : String
deriving DecidableEq

/-- Handler `login` (main.py lines 74-76): returns `{"username": username}`;
the password form field is accepted but not returned. -/
def login (username : String) (_password : String) : LoginResponse :=
  { username := username }

/-- Handler `create_user` (main.py lines 80-87): returns the `UserIn` body,
which the declared `response_model=UserOut` projects down to the `UserOut`
fields, dropping `password`. -/
def create_user (user : UserIn) : UserOut :=
  { username := user.username, email := user.email, full_name := user.full_name }

/-- Status code declared on `POST /user/` (main.py line 83):
`status.HTTP_201_CREATED`. -/
def create_user_status_code : Nat := 201

/-- JSON serialization of a `UserOut` body as key/value pairs (pydantic
serializes every declared field, an absent `full_name` as null). -/
def UserOut.toPairs (u : UserOut) : List (String × Option String) :=
  [("username", some u.username), ("email", some u.email), ("full_name", u.full_name)]

/-- Response of `GET /` (main.py lines 90-92). -/
structure HomeResponse where
  message : String
deriving DecidableEq

/-- Handler `home` (main.py lines 90-92). -/
def home : HomeResponse := { message := "Hello World!" }

/-- Response of `GET /models/{model_name}` (main.py lines 95-103). -/
structure ModelResponse where
  model_name : ModelName
  message : String
deriving DecidableEq

/-- Handler `get_model` (main.py lines 95-103): first-match dispatch in
declared order, `alexnet` by identity, then `.value == "lenet"`, else the
default message. -/
def get_model (model_name : ModelName) : ModelResponse :=
  if model_name = ModelName.alexnet then
    { model_name := model_name, message := "Deep Learning FTW!" }
  else if model_name.value = "lenet" then
    { model_name := model_name, message := "LeCNN all the images" }
  else
    { model_name := model_name, message := "Have some residuals" }

/-- Response of `GET /files/{file_path}` (main.py lines 106-108). -/
structure FileResponse where
  file_path : String
deriving DecidableEq

/-- Handler `read_file` (main.py lines 106-108). -/
def read_file (file_path : String) : FileResponse :=
  { file_path := file_path }

/-- Response dict built by `GET /items/{item_id}` (main.py lines 140-149):
`item_id` always, `q` only when the query is truthy, `description` only when
`short` is false. -/
structure ItemResponse where
  item_id : Nat
  q : Option String
  description : Option String
deriving DecidableEq

/-- Body of handler `read_item` for `GET /items/{item_id}` (main.py lines
116-149), parametrised by the items mapping it reads (the global `items`).
The UUID path parameter is looked up among the dict's string keys with
Python `==`; if absent, `HTTPException(404, "Item not found")` is raised. -/
def read_item_core (db : List (PyVal × String)) (item_id : Nat)
    (q : Option String) (short : Bool) : Except HTTPError ItemResponse :=
  if pyContains db (.uuid item_id) = false then
    Except.error { status_code := 404, detail := "Item not found" }
  else
    Except.ok
      { item_id := item_id
        q := if strTruthy q then q else none
        description :=
          if short then none
          else some "This is an amazing item that has a long description" }

/-- Handler `read_item` for `GET /items/{item_id}` (main.py lines 116-149),
reading the seeded global `items`. -/
def read_item (item_id : Nat) (q : Option String) (short : Bool) :
    Except HTTPError ItemResponse :=
  read_item_core items item_id q short

/-- Whether a UUID is a key of the seeded `items` mapping, under Python
dict-membership semantics. -/
def keyOfItems (item_id : Nat) : Bool :=
  pyContains items (.uuid item_id)

/-- The regex `^fixedquery$` declared on the `item-query` parameter (main.py
line 127): anchored at both ends, it matches exactly the string
"fixedquery". -/
def matchesFixedquery (s : String) : Bool :=
  s == "fixedquery"

/-- Validation the framework applies to a supplied `item-query` value before
the handler body runs, from the `Query` declaration (main.py lines 120-129):
`min_length=3`, `max_length=50`, `regex="^fixedquery$"`.  An absent value is
allowed (`default=None`). -/
def validItemQuery : Option String → Bool
  | none => true
  | some s => (3 ≤ s.length) && (s.length ≤ 50) && matchesFixedquery s

/-- Modelled from the spec: the framework-level route for
`GET /items/{item_id}` — any input that does not satisfy a declared
constraint "is rejected before the handler body executes; surfaced to the
caller as a structured 422 response" (the validation engine itself is an
external collaborator, not code of this repository). -/
def read_item_route (item_id : Nat) (q : Option String) (short : Bool) :
    Except HTTPError ItemResponse :=
  if validItemQuery q then read_item item_id q short
  else Except.error { status_code := 422, detail := "validation error" }

/-- Response of `GET /users/{user_id}/items/{item_id}` (main.py lines
152-163). -/
structure UserItemResponse where
  item_id : String
  owner_id : Int
  q : Option String
  description : Option String
deriving DecidableEq

/-- Handler `read_user_item` (main.py lines 152-163). -/
def read_user_item (user_id : Int) (item_id : String) (q : Option String)
    (short : Bool) : UserItemResponse :=
  { item_id := item_id
    owner_id := user_id
    q := if strTruthy q then q else none
    description :=
      if short then none
      else some "This is an amazing item that has a long description" }

/-- A record of the fixed fake item list (main.py line 168). -/
structure ItemNameRec where
  item_name : String
deriving DecidableEq

/-- Seeded fixed list (main.py line 168):
`fake_items_db = [{"item_name": "Foo"}, {"item_name": "Bar"}, {"item_name": "Baz"}]`. -/
def fake_items_db : List ItemNameRec :=
  [{ item_name := "Foo" }, { item_name := "Bar" }, { item_name := "Baz" }]

/-- Normalization of one Python slice bound for a list of length `n`:
a negative index counts from the end, then the bound is clamped to
`[0, n]`. -/
def sliceIdx (n i : Int) : Int :=
  if i < 0 then max (n + i) 0 else min i n

/-- Python list slicing `l[a:b]` (step 1): both bounds are normalized with
`sliceIdx`, and the elements from the lower to just before the upper bound
are returned. -/
def pySlice {α : Type} (l : List α) (a b : Int) : List α :=
  (l.drop (sliceIdx l.length a).toNat).take
    (sliceIdx l.length b - sliceIdx l.length a).toNat

/-- Body of the second handler named `read_item` in the source, bound to
`GET /items/` (main.py lines 171-173), parametrised by the list it reads
(the global `fake_items_db`): returns `fake_items_db[skip : skip + limit]`. -/
def read_item_list_core (db : List ItemNameRec) (skip limit : Int) :
    List ItemNameRec :=
  pySlice db skip (skip + limit)

/-- Handler for `GET /items/` (main.py lines 171-173; named `read_item` in
the source, renamed here because the source reuses the name for two
different handlers), with query parameters `skip` (default 0) and `limit`
(default 10). -/
def read_item_list (skip limit : Int) : List ItemNameRec :=
  read_item_list_core fake_items_db skip limit

/-- Response dict of `POST /items/` (main.py lines 176-182): all `Item`
fields, plus `price_with_tax` only when the tax is truthy. -/
structure CreateItemResponse where
  name : String
  description : Option String
  price : ℚ
  tax : Option ℚ
  tags : List String
  image : Option Image
  price_with_tax : Option ℚ
deriving DecidableEq

/-- Handler `create_item` (main.py lines 176-182): `item_dict = item.dict()`;
`if item.tax:` add `price_with_tax = item.price + item.tax`. -/
def create_item (item : Item) : CreateItemResponse :=
  { name := item.name
    description := item.description
    price := item.price
    tax := item.tax
    tags := item.tags
    image := item.image
    price_with_tax :=
      if ratTruthy item.tax then some (item.price + item.tax.getD 0)
      else none }

/-- Response of `PUT /items/{item_id}` (main.py lines 185-189). -/
structure UpdateItemResponse where
  item_id : Int
  item : Item
  user : User
  importance : Int
deriving DecidableEq

/-- Handler `update_item` (main.py lines 185-189). -/
def update_item (item_id : Int) (item : Item) (user : User)
    (importance : Int) : UpdateItemResponse :=
  { item_id := item_id, item := item, user := user, importance := importance }

/-- Handler `create_offer` (main.py lines 192-194): echoes the offer. -/
def create_offer (offer : Offer) : Offer := offer

/-- Handler `create_multiple_images` (main.py lines 197-199): echoes the
list. -/
def create_multiple_images (images : List Image) : List Image := images

/-- The app's per-process state: the two structures seeded at startup. -/
structure AppState where
  items : List (PyVal × String)
  fake_items_db : List ItemNameRec
deriving DecidableEq

/-- The state seeded at startup (main.py lines 66 and 168). -/
def startup : AppState :=
  { items := items, fake_items_db := fake_items_db }

/-- One validated invocation of some handler of the app, with its validated
arguments. -/
inductive Request where
  | loginReq (username password : String)
  | createUserReq (user : UserIn)
  | homeReq
  | getModelReq (model_name : ModelName)
  | readFileReq (file_path : String)
  | getItemReq (item_id : Nat) (q : Option String) (short : Bool)
  | readUserItemReq (user_id : Int) (item_id : String) (q : Option String) (short : Bool)
  | listItemsReq (skip limit : Int)
  | createItemReq (item : Item)
  | updateItemReq (item_id : Int) (item : Item) (user : User) (importance : Int)
  | createOfferReq (offer : Offer)
  | createImagesReq (images : List Image)

/-- Whether a request targets the one handler with an application-level
error branch, `GET /items/{item_id}`. -/
def Request.isGetItem : Request → Bool
  | .getItemReq _ _ _ => true
  | _ => false

/-- Sum of all the handlers' response bodies. -/
inductive Response where
  | loginBody : LoginResponse → Response
  | userBody : UserOut → Response
  | homeBody : HomeResponse → Response
  | modelBody : ModelResponse → Response
  | fileBody : FileResponse → Response
  | itemBody : ItemResponse → Response
  | userItemBody : UserItemResponse → Response
  | listBody : List ItemNameRec → Response
  | createdBody : CreateItemResponse → Response
  | updatedBody : UpdateItemResponse → Response
  | offerBody : Offer → Response
  | imagesBody : List Image → Response

/-- Whether a handler outcome is a success (no `HTTPException` raised). -/
def respOk : Except HTTPError Response → Bool
  | .ok _ => true
  | .error _ => false

/-- Dispatch a validated request to its handler: the handler reads the
state's seeded structures where the source reads the globals, and returns
the state unchanged (no handler assigns to or mutates the globals). -/
def handleRequest (st : AppState) (r : Request) :
    AppState × Except HTTPError Response :=
  match r with
  | .loginReq u p => (st, .ok (.loginBody (login u p)))
  | .createUserReq u => (st, .ok (.userBody (create_user u)))
  | .homeReq => (st, .ok (.homeBody home))
  | .getModelReq m => (st, .ok (.modelBody (get_model m)))
  | .readFileReq p => (st, .ok (.fileBody (read_file p)))
  | .getItemReq i q s => (st, (read_item_core st.items i q s).map Response.itemBody)
  | .readUserItemReq uid iid q s => (st, .ok (.userItemBody (read_user_item uid iid q s)))
  | .listItemsReq a b => (st, .ok (.listBody (read_item_list_core st.fake_items_db a b)))
  | .createItemReq it => (st, .ok (.createdBody (create_item it)))
  | .updateItemReq iid it u imp => (st, .ok (.updatedBody (update_item iid it u imp)))
  | .createOfferReq o => (st, .ok (.offerBody (create_offer o)))
  | .createImagesReq l => (st, .ok (.imagesBody (create_multiple_images l)))

/-- C6: `GET /models/{model_name}` dispatches by first match in declared
order over the closed enum: alexnet yields "Deep Learning FTW!", lenet
yields "LeCNN all the images", resnet falls through to the default
"Have some residuals", and every response echoes the model name. -/
theorem C6_get_model_dispatch :
    get_model ModelName.alexnet =
      { model_name := ModelName.alexnet, message := "Deep Learning FTW!" } ∧
    get_model ModelName.lenet =
      { model_name := ModelName.lenet, message := "LeCNN all the images" } ∧
    get_model ModelName.resnet =
      { model_name := ModelName.resnet, message := "Have some residuals" } ∧
    ∀ m : ModelName, (get_model m).model_name = m := by
  refine ⟨rfl, rfl, rfl, ?_⟩
  intro m
  cases m <;> rfl

/-- Python slicing `l[a:(a+b)]` with natural bounds agrees with dropping the
first `a` elements and taking the next `b`, out-of-range bounds clamping
silently. -/
theorem pySlice_nat {α : Type} (l : List α) (a b : Nat) :
    pySlice l (↑a) (↑a + ↑b) = (l.drop a).take b := by
  have ha : ¬((a : Int) < 0) := not_lt.mpr (Int.natCast_nonneg a)
  have hab : ¬((a : Int) + (b : Int) < 0) := by
    have := Int.natCast_nonneg a
    have := Int.natCast_nonneg b
    omega
  unfold pySlice sliceIdx
  rw [if_neg ha, if_neg hab]
  have e1 : (min (a : Int) (l.length : Int)).toNat = min a l.length := by omega
  have e2 : (min ((a : Int) + (b : Int)) (l.length : Int) -
      min (a : Int) (l.length : Int)).toNat =
      min (a + b) l.length - min a l.length := by omega
  rw [e1, e2]
  rcases le_or_lt a l.length with h | h
  · rw [min_eq_left h, List.take_eq_take]
    simp only [List.length_drop]
    omega
  · rw [min_eq_right (le_of_lt h), List.drop_length,
      List.drop_eq_nil_of_le (le_of_lt h)]
    simp

/-- C1: for every valid Item body with tax strictly greater than 0, the
POST /items/ response has price_with_tax equal to price + tax exactly. -/
theorem C1_price_with_tax (item : Item) (t : ℚ) (_hval : itemValid item = true)
    (htax : item.tax = some t) (hpos : 0 < t) :
    (create_item item).price_with_tax = some (item.price + t) := by
  simp [create_item, ratTruthy, htax, bne_iff_ne, hpos.ne']

/-- Witness for C1 at a concrete valid item with price 5 and tax 2. -/
theorem C1_witness :
    itemValid ({ name := "Foo", price := 5, tax := some 2 } : Item) = true ∧
    (create_item ({ name := "Foo", price := 5, tax := some 2 } : Item)).price_with_tax =
      some (5 + 2) :=
  ⟨by decide, C1_price_with_tax _ 2 (by decide) rfl (by decide)⟩

/-- C8: for every valid Item body whose tax is absent or zero, the
POST /items/ response omits price_with_tax, and all other item fields are
returned unchanged. -/
theorem C8_omits_price_with_tax (item : Item) (_hval : itemValid item = true)
    (h : item.tax = none ∨ item.tax = some 0) :
    (create_item item).price_with_tax = none ∧
    (create_item item).name = item.name ∧
    (create_item item).description = item.description ∧
    (create_item item).price = item.price ∧
    (create_item item).tax = item.tax ∧
    (create_item item).tags = item.tags ∧
    (create_item item).image = item.image := by
  refine ⟨?_, rfl, rfl, rfl, rfl, rfl, rfl⟩
  rcases h with h | h <;> simp [create_item, ratTruthy, h]

/-- Witness for C8 at a concrete valid item with no tax. -/
theorem C8_witness :
    itemValid ({ name := "Bar", price := 3 } : Item) = true ∧
    (create_item ({ name := "Bar", price := 3 } : Item)).price_with_tax = none :=
  ⟨by decide, (C8_omits_price_with_tax _ (by decide) (Or.inl rfl)).1⟩

/-- C2: the POST /user response never contains a password field; it is the
UserOut projection of the input, so two inputs differing only in password
yield identical responses, and the success status code is 201. -/
theorem C2_no_password :
    (∀ u : UserIn,
      (((create_user u).toPairs.map Prod.fst).contains "password") = false) ∧
    (∀ u : UserIn, create_user u =
      { username := u.username, email := u.email, full_name := u.full_name }) ∧
    (∀ (username email : String) (full_name : Option String) (p1 p2 : String),
      create_user (UserIn.mk username p1 email full_name) =
      create_user (UserIn.mk username p2 email full_name)) ∧
    create_user_status_code = 201 :=
  ⟨fun _ => rfl, fun _ => rfl, fun _ _ _ _ _ => rfl, rfl⟩

/-- C5: for every UUID, GET /items/{item_id} raises 404 Not Found: the
seeded mapping is keyed only by the string "foo", which no UUID equals, so
no UUID is a key and the success branch is unreachable. -/
theorem C5_every_uuid_404 (item_id : Nat) (q : Option String) (short : Bool) :
    read_item item_id q short =
      Except.error { status_code := 404, detail := "Item not found" } ∧
    keyOfItems item_id = false :=
  ⟨rfl, rfl⟩

/-- C3: for every UUID that is not a key of the seeded items mapping,
GET /items/{item_id} fails with 404 and detail "Item not found"; and this
is the only handler with an application-level error: every other handler
always succeeds. -/
theorem C3_only_not_found (item_id : Nat) (q : Option String) (short : Bool)
    (h : keyOfItems item_id = false) :
    read_item item_id q short =
      Except.error { status_code := 404, detail := "Item not found" } ∧
    ∀ (st : AppState) (r : Request), r.isGetItem = false →
      respOk (handleRequest st r).2 = true := by
  constructor
  · have h' : pyContains items (PyVal.uuid item_id) = false := h
    simp [read_item, read_item_core, h']
  · intro st r hr
    cases r <;> first | rfl | simp [Request.isGetItem] at hr

/-- Witness for C3 at the zero UUID and a non-GET-item request. -/
theorem C3_witness :
    read_item 0 none false =
      Except.error { status_code := 404, detail := "Item not found" } ∧
    respOk (handleRequest startup Request.homeReq).2 = true :=
  ⟨(C3_only_not_found 0 none false rfl).1,
   (C3_only_not_found 0 none false rfl).2 startup Request.homeReq rfl⟩

/-- C4 (code bug): the claim describes the success branch of
GET /items/{item_id} for a present item_id, but no UUID can be present in
the string-keyed seeded mapping, so the handler 404s at every valid UUID:
here evaluated at the UUID 00000000-0000-0000-0000-000000000000 with the
valid query "fixedquery" and short=false. -/
theorem C4_success_branch_unreachable :
    read_item 0 (some "fixedquery") false =
      Except.error { status_code := 404, detail := "Item not found" } :=
  rfl

/-- C9: a supplied item-query value violating the declared constraints
(regex ^fixedquery$, min length 3, max length 50) is rejected with a
validation error, whatever the item_id. -/
theorem C9_query_validation (item_id : Nat) (s : String) (short : Bool)
    (h : validItemQuery (some s) = false) :
    read_item_route item_id (some s) short =
      Except.error { status_code := 422, detail := "validation error" } := by
  simp [read_item_route, h]

/-- Witness for C9 at the value "abc", which fails the regex. -/
theorem C9_witness :
    validItemQuery (some "abc") = false ∧
    read_item_route 0 (some "abc") false =
      Except.error { status_code := 422, detail := "validation error" } :=
  ⟨by decide, C9_query_validation 0 "abc" false (by decide)⟩

/-- C7: GET /items/ returns the slice of the fixed three-element list from
skip to skip+limit with out-of-range indices silently clamped by Python
slicing semantics; in particular skip=1, limit=1 returns exactly the
record "Bar", and the defaults skip=0, limit=10 return the whole list. -/
theorem C7_list_slice (skip limit : Nat) :
    read_item_list (↑skip) (↑limit) = (fake_items_db.drop skip).take limit ∧
    read_item_list 1 1 = [{ item_name := "Bar" }] ∧
    read_item_list 0 10 = fake_items_db ∧
    read_item_list 2 10 = [{ item_name := "Baz" }] ∧
    read_item_list 5 7 = [] ∧
    read_item_list (-1) 10 = [{ item_name := "Baz" }] ∧
    read_item_list (-5) 2 = [] := by
  refine ⟨?_, rfl, rfl, rfl, rfl, rfl, rfl⟩
  unfold read_item_list read_item_list_core
  exact pySlice_nat fake_items_db skip limit

/-- C10: no handler mutates the two seeded in-memory structures: every
handler returns the state unchanged, so after any sequence of handler
invocations the state still equals its startup value. -/
theorem C10_no_mutation :
    (∀ (st : AppState) (r : Request), (handleRequest st r).1 = st) ∧
    (∀ (reqs : List Request),
      reqs.foldl (fun s r => (handleRequest s r).1) startup = startup) := by
  have h1 : ∀ (st : AppState) (r : Request), (handleRequest st r).1 = st := by
    intro st r
    cases r <;> rfl
  refine ⟨h1, ?_⟩
  have h2 : ∀ (reqs : List Request) (st : AppState),
      reqs.foldl (fun s r => (handleRequest s r).1) st = st := by
    intro reqs
    induction reqs with
    | nil => intro st; rfl
    | cons r rs ih =>
      intro st
      rw [List.foldl_cons, h1]
      exact ih st
  exact fun reqs => h2 reqs startup
